import Mathlib

/-!
Shallow embedding of the `spacerace` repository (a small 3D space-flight arcade
game: quaternion rigid-body physics, wireframe perspective rendering, JSON
course loading) and proofs of the specification claims about it.

Python floats are modelled by the real numbers; numpy arrays of length 3 and 4
by the `Vec3` and `Quat` structures below; Python exceptions by `Except`
values.  Each definition mirrors one function or class of the source files
`utils.py`, `physics.py`, `game_objects.py`, `renderer.py`, `main.py`.
-/

noncomputable section

/-! ### 3D vectors (numpy float arrays of length 3) -/

@[ext]
structure Vec3 where
  x : ℝ
  y : ℝ
  z : ℝ

instance : Zero Vec3 := ⟨⟨0, 0, 0⟩⟩

instance : Add Vec3 := ⟨fun a b => ⟨a.x + b.x, a.y + b.y, a.z + b.z⟩⟩

instance : Sub Vec3 := ⟨fun a b => ⟨a.x - b.x, a.y - b.y, a.z - b.z⟩⟩

instance : Neg Vec3 := ⟨fun a => ⟨-a.x, -a.y, -a.z⟩⟩

instance : SMul ℝ Vec3 := ⟨fun s a => ⟨s * a.x, s * a.y, s * a.z⟩⟩

/-- `np.dot` on 3-vectors. -/
def Vec3.dot (a b : Vec3) : ℝ := a.x * b.x + a.y * b.y + a.z * b.z

/-- `np.cross` on 3-vectors. -/
def Vec3.cross (a b : Vec3) : Vec3 :=
  ⟨a.y * b.z - a.z * b.y, a.z * b.x - a.x * b.z, a.x * b.y - a.y * b.x⟩

/-- Sum of squared components of a 3-vector. -/
def Vec3.normSq (a : Vec3) : ℝ := a.x ^ 2 + a.y ^ 2 + a.z ^ 2

/-- `np.linalg.norm` on 3-vectors (Euclidean norm). -/
def Vec3.norm (a : Vec3) : ℝ := Real.sqrt a.normSq

@[simp] lemma Vec3.add_x (a b : Vec3) : (a + b).x = a.x + b.x := rfl

@[simp] lemma Vec3.add_y (a b : Vec3) : (a + b).y = a.y + b.y := rfl

@[simp] lemma Vec3.add_z (a b : Vec3) : (a + b).z = a.z + b.z := rfl

@[simp] lemma Vec3.sub_x (a b : Vec3) : (a - b).x = a.x - b.x := rfl

@[simp] lemma Vec3.sub_y (a b : Vec3) : (a - b).y = a.y - b.y := rfl

@[simp] lemma Vec3.sub_z (a b : Vec3) : (a - b).z = a.z - b.z := rfl

@[simp] lemma Vec3.smul_x (s : ℝ) (a : Vec3) : (s • a).x = s * a.x := rfl

@[simp] lemma Vec3.smul_y (s : ℝ) (a : Vec3) : (s • a).y = s * a.y := rfl

@[simp] lemma Vec3.smul_z (s : ℝ) (a : Vec3) : (s • a).z = s * a.z := rfl

@[simp] lemma Vec3.zero_x : (0 : Vec3).x = 0 := rfl

@[simp] lemma Vec3.zero_y : (0 : Vec3).y = 0 := rfl

@[simp] lemma Vec3.zero_z : (0 : Vec3).z = 0 := rfl

/-! ### Quaternions (numpy float arrays of length 4, `[w, x, y, z]`) -/

@[ext]
structure Quat where
  w : ℝ
  x : ℝ
  y : ℝ
  z : ℝ

instance : Add Quat := ⟨fun a b => ⟨a.w + b.w, a.x + b.x, a.y + b.y, a.z + b.z⟩⟩

instance : SMul ℝ Quat := ⟨fun s a => ⟨s * a.w, s * a.x, s * a.y, s * a.z⟩⟩

/-- Sum of squared components of a quaternion. -/
def Quat.normSq (q : Quat) : ℝ := q.w ^ 2 + q.x ^ 2 + q.y ^ 2 + q.z ^ 2

/-- `np.linalg.norm` on 4-vectors (Euclidean norm of the quaternion). -/
def Quat.norm (q : Quat) : ℝ := Real.sqrt q.normSq

@[simp] lemma Quat.qadd_w (a b : Quat) : (a + b).w = a.w + b.w := rfl

@[simp] lemma Quat.qadd_x (a b : Quat) : (a + b).x = a.x + b.x := rfl

@[simp] lemma Quat.qadd_y (a b : Quat) : (a + b).y = a.y + b.y := rfl

@[simp] lemma Quat.qadd_z (a b : Quat) : (a + b).z = a.z + b.z := rfl

@[simp] lemma Quat.qsmul_w (s : ℝ) (a : Quat) : (s • a).w = s * a.w := rfl

@[simp] lemma Quat.qsmul_x (s : ℝ) (a : Quat) : (s • a).x = s * a.x := rfl

@[simp] lemma Quat.qsmul_y (s : ℝ) (a : Quat) : (s • a).y = s * a.y := rfl

@[simp] lemma Quat.qsmul_z (s : ℝ) (a : Quat) : (s • a).z = s * a.z := rfl

/-! ### utils.py -/

namespace utils

/-- `utils.q_conjugate`: negate the vector part of a quaternion. -/
def q_conjugate (q : Quat) : Quat := ⟨q.w, -q.x, -q.y, -q.z⟩

/-- `utils.q_multiply`: the Hamilton product, with the component formulas
exactly as written in the source. -/
def q_multiply (q1 q2 : Quat) : Quat :=
  ⟨q1.w * q2.w - q1.x * q2.x - q1.y * q2.y - q1.z * q2.z,
   q1.w * q2.x + q1.x * q2.w + q1.y * q2.z - q1.z * q2.y,
   q1.w * q2.y - q1.x * q2.z + q1.y * q2.w + q1.z * q2.x,
   q1.w * q2.z + q1.x * q2.y - q1.y * q2.x + q1.z * q2.w⟩

/-- `utils.qv_rotate`: rotate a vector by a quaternion,
`q * (0, v) * conjugate(q)`, returning the vector part. -/
def qv_rotate (q : Quat) (v : Vec3) : Vec3 :=
  let v_quat : Quat := ⟨0, v.x, v.y, v.z⟩
  let r := q_multiply (q_multiply q v_quat) (q_conjugate q)
  ⟨r.x, r.y, r.z⟩

end utils

/-! ### physics.py (the Euler-angle `Spaceship` present under `src/`) -/

namespace physics

/-- `physics.add_vectors`. -/
def add_vectors (v1 v2 : Vec3) : Vec3 := ⟨v1.x + v2.x, v1.y + v2.y, v1.z + v2.z⟩

/-- `physics.scale_vector`. -/
def scale_vector (v : Vec3) (s : ℝ) : Vec3 := ⟨v.x * s, v.y * s, v.z * s⟩

/-- `physics.Spaceship`: position/velocity in meters, `orientation` as Euler
angles in degrees, diagonal inertia tensor, per-frame force/torque
accumulators. -/
structure Spaceship where
  position : Vec3
  velocity : Vec3
  orientation : Vec3
  angular_velocity : Vec3
  mass : ℝ
  inertia_tensor : Vec3
  total_force : Vec3
  total_torque : Vec3

/-- `physics.Spaceship.__init__`: optional position/velocity/orientation
default to zero vectors; `angular_velocity`, the accumulators and the
hard-coded inertia tensor are set as in the source.  No validation of `mass`
or the inertia components is performed. -/
def Spaceship.init (position velocity orientation : Option Vec3) (mass : ℝ) : Spaceship :=
  { position := position.getD ⟨0, 0, 0⟩
    velocity := velocity.getD ⟨0, 0, 0⟩
    orientation := orientation.getD ⟨0, 0, 0⟩
    angular_velocity := ⟨0, 0, 0⟩
    mass := mass
    inertia_tensor := ⟨1000, 1000, 1000⟩
    total_force := ⟨0, 0, 0⟩
    total_torque := ⟨0, 0, 0⟩ }

/-- `physics.Spaceship.apply_force`: accumulate into `total_force`. -/
def Spaceship.apply_force (self : Spaceship) (force : Vec3) : Spaceship :=
  { self with total_force := add_vectors self.total_force force }

/-- `physics.Spaceship.apply_torque`: accumulate into `total_torque`. -/
def Spaceship.apply_torque (self : Spaceship) (torque : Vec3) : Spaceship :=
  { self with total_torque := add_vectors self.total_torque torque }

/-- `physics.Spaceship.update`: semi-implicit Euler integration exactly as in
the source — velocity from the accumulated force first, then position from the
new velocity; the angular analogue; accumulators reset to zero at the end.
Lean's real division returns `0` on a zero divisor where Python would raise
`ZeroDivisionError` (`mass = 0` or a zero inertia component). -/
def Spaceship.update (self : Spaceship) (delta_time : ℝ) : Spaceship :=
  let linear_acceleration := scale_vector self.total_force (1.0 / self.mass)
  let velocity := add_vectors self.velocity (scale_vector linear_acceleration delta_time)
  let position := add_vectors self.position (scale_vector velocity delta_time)
  let angular_acceleration : Vec3 :=
    ⟨self.total_torque.x / self.inertia_tensor.x,
     self.total_torque.y / self.inertia_tensor.y,
     self.total_torque.z / self.inertia_tensor.z⟩
  let angular_velocity :=
    add_vectors self.angular_velocity (scale_vector angular_acceleration delta_time)
  let orientation := add_vectors self.orientation (scale_vector angular_velocity delta_time)
  { self with
    velocity := velocity
    position := position
    angular_velocity := angular_velocity
    orientation := orientation
    total_force := ⟨0, 0, 0⟩
    total_torque := ⟨0, 0, 0⟩ }

end physics

/-! ### The quaternion-based Spaceship driven by main.py

`src/main.py` drives a quaternion-based `Spaceship`
(`apply_force(force, local_space=True)`, `get_forward_vector`, a quaternion
`orientation` reset to `[1,0,0,0]`), a later rewrite of `physics.py`.  That
rewrite is part of the repository but is not among the files under `src/`;
`src/physics.py` holds the older Euler-angle variant above. -/

/-- Modelled from the spec: the quaternion-based rigid-body `Spaceship` of
spec section 4.2, whose implementation file is missing from `src/` (only its
caller `src/main.py` is present).  Fields follow the spec's RigidBody data
model. -/
structure SpaceshipQ where
  position : Vec3
  velocity : Vec3
  orientation : Quat
  angular_velocity : Vec3
  mass : ℝ
  inertia_tensor : Vec3
  total_force : Vec3
  total_torque : Vec3

/-- Modelled from the spec: `applyForce(f, local)` — "if `local` is true, f is
first rotated by current orientation into world space; then added to the
pending-force accumulator.  No immediate effect on motion — effect is deferred
to the next `update`."  The rotation is `utils.qv_rotate` from `src/utils.py`. -/
def SpaceshipQ.apply_force (self : SpaceshipQ) (force : Vec3) (local_space : Bool) : SpaceshipQ :=
  let world_force := if local_space then utils.qv_rotate self.orientation force else force
  { self with total_force := self.total_force + world_force }

/-- Modelled from the spec: `applyTorque(t)` — added directly to the
pending-torque accumulator. -/
def SpaceshipQ.apply_torque (self : SpaceshipQ) (torque : Vec3) : SpaceshipQ :=
  { self with total_torque := self.total_torque + torque }

/-- Modelled from the spec: `update(dt)` of spec section 4.2 — semi-implicit
Euler on the linear state, componentwise torque over inertia, first-order
quaternion integration `q += 0.5 * (q * (0, omega)) * dt`, renormalization of
the orientation, accumulator reset.  Lean's real division returns `0` on a
zero divisor (zero pre-normalization norm is a fatal precondition violation
per the spec and cannot occur from a unit quaternion). -/
def SpaceshipQ.update (self : SpaceshipQ) (dt : ℝ) : SpaceshipQ :=
  let linear_acceleration := (1 / self.mass) • self.total_force
  let velocity := self.velocity + dt • linear_acceleration
  let position := self.position + dt • velocity
  let angular_acceleration : Vec3 :=
    ⟨self.total_torque.x / self.inertia_tensor.x,
     self.total_torque.y / self.inertia_tensor.y,
     self.total_torque.z / self.inertia_tensor.z⟩
  let angular_velocity := self.angular_velocity + dt • angular_acceleration
  let q_derivative :=
    (0.5 : ℝ) • utils.q_multiply self.orientation
      ⟨0, angular_velocity.x, angular_velocity.y, angular_velocity.z⟩
  let integrated := self.orientation + dt • q_derivative
  let orientation := (1 / integrated.norm) • integrated
  { position := position
    velocity := velocity
    orientation := orientation
    angular_velocity := angular_velocity
    mass := self.mass
    inertia_tensor := self.inertia_tensor
    total_force := ⟨0, 0, 0⟩
    total_torque := ⟨0, 0, 0⟩ }

/-! ### JSON values and Python exceptions -/

/-- A parsed JSON value, as handed to `load_course_from_file` by `json.load`.
Numbers are modelled by the rationals. -/
inductive Json where
  | null : Json
  | bool : Bool → Json
  | num : ℚ → Json
  | str : String → Json
  | arr : List Json → Json
  | obj : List (String × Json) → Json

/-- The outcome of `open(filepath)` followed by `json.load(f)`: a parsed JSON
document, or one of the two I/O-level exceptions. -/
inductive ReadErr where
  | fileNotFound : ReadErr
  | jsonDecodeError : ReadErr
deriving DecidableEq

/-- Python exceptions that can escape `load_course_from_file`. -/
inductive PyErr where
  | fileNotFound : PyErr
  | jsonDecodeError : PyErr
  | keyError : String → PyErr
deriving DecidableEq

/-- Python `d.get(key)` on a JSON object (`None` when absent or not a dict;
the loader only ever receives dict tops in the verified scenarios). -/
def Json.getKey? : Json → String → Option Json
  | .obj kvs, k => kvs.lookup k
  | _, _ => none

/-- Python `d[key]` on a JSON object: raises `KeyError(key)` when absent. -/
def Json.getItem : Json → String → Except PyErr Json
  | j, k =>
    match j.getKey? k with
    | some v => Except.ok v
    | none => Except.error (PyErr.keyError k)

/-- The element list of a JSON array (`[]` on non-arrays). -/
def Json.asList : Json → List Json
  | .arr xs => xs
  | _ => []

/-- The rational value of a JSON number (`0` on non-numbers). -/
def Json.asNum : Json → ℚ
  | .num q => q
  | _ => 0

/-- The real value of a JSON number. -/
def Json.asReal (j : Json) : ℝ := (j.asNum : ℝ)

/-- The string value of a JSON string (`""` on non-strings). -/
def Json.asString : Json → String
  | .str s => s
  | _ => ""

/-- `np.array(position, dtype=float)` on a JSON `[x, y, z]` triple. -/
def Json.asVec3 : Json → Vec3
  | .arr [a, b, c] => ⟨a.asReal, b.asReal, c.asReal⟩
  | _ => ⟨0, 0, 0⟩

/-- `np.array(orientation, dtype=float)` on a JSON `[w, x, y, z]` quadruple. -/
def Json.asQuat : Json → Quat
  | .arr [a, b, c, d] => ⟨a.asReal, b.asReal, c.asReal, d.asReal⟩
  | _ => ⟨0, 0, 0, 0⟩

/-! ### game_objects.py -/

namespace game_objects

/-- `game_objects.Asteroid`: dynamic state of an asteroid.  The derived mesh
fields (`base_vertices`, `vertices`, `edges`, chosen from `ASTEROID_MODELS` by
`model_id` with a silent fallback to the cube) are untouched by `update` and
by every claim, and are not embedded: the `asteroid_jagged_1` vertex data is
produced at import time by seeded `np.random` calls and has no closed form in
the source text. -/
structure Asteroid where
  model_id : String
  position : Vec3
  orientation : Quat
  angular_velocity : Vec3
  size : ℝ

/-- The first-order quaternion integration step inside `Asteroid.update`:
`orientation + (0.5 * q_multiply(orientation, (0, angular_velocity))) * dt`. -/
def Asteroid.integrated (self : Asteroid) (dt : ℝ) : Quat :=
  let w_quat : Quat :=
    ⟨0, self.angular_velocity.x, self.angular_velocity.y, self.angular_velocity.z⟩
  let q_derivative := (0.5 : ℝ) • utils.q_multiply self.orientation w_quat
  self.orientation + dt • q_derivative

/-- `game_objects.Asteroid.update`: integrate the orientation quaternion, then
normalize it — but only when the post-integration norm is strictly positive
(`if norm > 0:` in the source); a zero norm leaves the orientation as
integrated, with no error. -/
def Asteroid.update (self : Asteroid) (dt : ℝ) : Asteroid :=
  let ori := self.integrated dt
  let norm := ori.norm
  if norm > 0 then { self with orientation := (1 / norm) • ori }
  else { self with orientation := ori }

/-- `game_objects.Gate`: a race gate with its square wireframe model derived
from `size` exactly as in `Gate.__init__`. -/
structure Gate where
  position : Vec3
  orientation : Quat
  size : ℝ
  is_passed : Bool
  vertices : List Vec3
  edges : List (ℕ × ℕ)

/-- `game_objects.Gate.__init__`. -/
def Gate.init (position : Vec3) (orientation : Quat) (size : ℝ) : Gate :=
  { position := position
    orientation := orientation
    size := size
    is_passed := false
    vertices := [⟨-size, -size, 0⟩, ⟨size, -size, 0⟩, ⟨size, size, 0⟩, ⟨-size, size, 0⟩]
    edges := [(0, 1), (1, 2), (2, 3), (3, 0)] }

/-- The result dictionary of `load_course_from_file`. -/
structure Course where
  gates : List Gate
  asteroids : List Asteroid
  boundaries : Json

/-- The sort key extraction `lambda x: x['gate_number']` (evaluated by
`sorted` on every record before any gate is built; `KeyError` on a record
without the key). -/
def gate_sort_key (g : Json) : Except PyErr (ℚ × Json) := do
  let n ← g.getItem "gate_number"
  return (n.asNum, g)

/-- `sorted(data.get('race_gates', []), key=lambda x: x['gate_number'])`:
extract every sort key, then sort the records by key.  Python's `sorted` is a
stable comparison sort; `List.insertionSort` is used as its model (gate
numbers are unique per the course invariant, so tie order is immaterial). -/
def sorted_gate_records (records : List Json) : Except PyErr (List (ℚ × Json)) := do
  let keyed ← records.mapM gate_sort_key
  return List.insertionSort (fun a b => a.1 ≤ b.1) keyed

/-- The `Gate(...)` construction inside the gate loop of
`load_course_from_file`, with field accesses in source order. -/
def build_gate (p : ℚ × Json) : Except PyErr Gate := do
  let pos ← p.2.getItem "position"
  let ori ← p.2.getItem "orientation"
  let sz ← p.2.getItem "size"
  return Gate.init pos.asVec3 ori.asQuat sz.asReal

/-- The `Asteroid(...)` construction inside the asteroid loop of
`load_course_from_file`, with field accesses in source (keyword-argument)
order. -/
def build_asteroid (a : Json) : Except PyErr Asteroid := do
  let pos ← a.getItem "position"
  let sz ← a.getItem "size"
  let ori ← a.getItem "orientation"
  let av ← a.getItem "angular_velocity"
  let mid ← a.getItem "model_id"
  return { model_id := mid.asString
           position := pos.asVec3
           orientation := ori.asQuat
           angular_velocity := av.asVec3
           size := sz.asReal }

/-- `game_objects.load_course_from_file`: the argument stands for the outcome
of `open` + `json.load` on the course file; any exception raised inside the
function propagates as an `Except.error`. -/
def load_course_from_file (file : Except ReadErr Json) : Except PyErr Course := do
  let data ← match file with
    | .error .fileNotFound => Except.error PyErr.fileNotFound
    | .error .jsonDecodeError => Except.error PyErr.jsonDecodeError
    | .ok d => Except.ok d
  let sorted_records ← sorted_gate_records ((data.getKey? "race_gates").getD (Json.arr [])).asList
  let gates ← sorted_records.mapM build_gate
  let asteroids ← ((data.getKey? "asteroids").getD (Json.arr [])).asList.mapM build_asteroid
  return { gates := gates
           asteroids := asteroids
           boundaries := (data.getKey? "boundaries").getD
             (Json.obj [("width", .num 20000), ("height", .num 20000), ("depth", .num 20000)]) }

end game_objects

/-! ### renderer.py -/

namespace renderer

/-- `renderer.Camera`: viewpoint state and projection parameters.  Screen
dimensions are held as reals (Python ints participate in float arithmetic). -/
structure Camera where
  width : ℝ
  height : ℝ
  fov : ℝ
  near_plane : ℝ
  position : Vec3
  target : Vec3
  up : Vec3

/-- `renderer.Camera.__init__` (fov defaults to 90 at the call sites). -/
def Camera.init (screen_width screen_height fov : ℝ) : Camera :=
  { width := screen_width
    height := screen_height
    fov := fov
    near_plane := 0.5
    position := ⟨0, 0, -50⟩
    target := ⟨0, 0, 0⟩
    up := ⟨0, 1, 0⟩ }

/-- Python `int(...)` on a float: truncation toward zero. -/
def pyInt (r : ℝ) : ℤ := if 0 ≤ r then ⌊r⌋ else ⌈r⌉

/-- Step 1 of `Camera.project_point`: `forward`, normalized when its norm is
positive. -/
def Camera.viewForward (self : Camera) : Vec3 :=
  let forward := self.target - self.position
  if forward.norm > 0 then (1 / forward.norm) • forward else forward

/-- Step 1 of `Camera.project_point`: `right = cross(forward, up)`, normalized
when its norm is positive. -/
def Camera.viewRight (self : Camera) : Vec3 :=
  let right := Vec3.cross self.viewForward self.up
  if right.norm > 0 then (1 / right.norm) • right else right

/-- Step 1 of `Camera.project_point`: `camera_up = cross(right, forward)`. -/
def Camera.viewUp (self : Camera) : Vec3 :=
  Vec3.cross self.viewRight self.viewForward

/-- Step 2 of `Camera.project_point`: the camera-space coordinates
`(p_camera_x, p_camera_y, p_camera_z)` of a world point. -/
def Camera.cameraCoords (self : Camera) (point_3d : Vec3) : ℝ × ℝ × ℝ :=
  let p_camera := point_3d - self.position
  (Vec3.dot p_camera self.viewRight, Vec3.dot p_camera self.viewUp,
   Vec3.dot p_camera self.viewForward)

/-- The camera-space depth `p_camera_z` of a world point. -/
def Camera.cameraZ (self : Camera) (point_3d : Vec3) : ℝ :=
  (self.cameraCoords point_3d).2.2

/-- `renderer.Camera.project_point`: steps 3-5 of the source — near-plane
clip, perspective divide by `tan(fov_rad / 2) * p_camera_z`, mapping to pixel
coordinates, and conversion to `int` pixel indices. -/
def Camera.project_point (self : Camera) (point_3d : Vec3) : Option (ℤ × ℤ) :=
  let c := self.cameraCoords point_3d
  let p_camera_x := c.1
  let p_camera_y := c.2.1
  let p_camera_z := c.2.2
  if p_camera_z < self.near_plane then none
  else
    let fov_rad := self.fov * Real.pi / 180
    let scale := 1 / (Real.tan (fov_rad / 2) * p_camera_z)
    let x_proj := p_camera_x * scale
    let y_proj := p_camera_y * scale
    let x_screen := (x_proj + 1) * 0.5 * self.width
    let y_screen := (1 - (y_proj + 1) * 0.5) * self.height
    some (pyInt x_screen, pyInt y_screen)

/-- The per-vertex screen points computed by `draw_wireframe_object`:
world-transform each local vertex, then project it. -/
def screen_points (camera : Camera) (position : Vec3) (orientation : Quat)
    (vertices : List Vec3) : List (Option (ℤ × ℤ)) :=
  (vertices.map (fun v => utils.qv_rotate orientation v + position)).map
    camera.project_point

/-- `renderer.draw_wireframe_object`, with the `pygame.draw.line` calls
reified as the returned list of segments, in edge order.  An index outside
`screen_points` is treated as a missing point (Python would raise
`IndexError`; every call site uses in-range edge lists). -/
def draw_wireframe_object (camera : Camera) (position : Vec3) (orientation : Quat)
    (vertices : List Vec3) (edges : List (ℕ × ℕ)) : List ((ℤ × ℤ) × (ℤ × ℤ)) :=
  let pts := screen_points camera position orientation vertices
  edges.filterMap (fun e =>
    match pts.getD e.1 none, pts.getD e.2 none with
    | some p1, some p2 => some (p1, p2)
    | _, _ => none)

end renderer

/-! ### main.py -/

namespace main

/-- ASCII lower-casing of one character (Python `str.lower` restricted to the
ASCII config values that occur). -/
def asciiLower (c : Char) : Char :=
  if 'A' ≤ c ∧ c ≤ 'Z' then Char.ofNat (c.toNat + 32) else c

/-- Python whitespace stripped by `str.strip`. -/
def isPySpace (c : Char) : Bool :=
  c = ' ' ∨ c = '\t' ∨ c = '\n' ∨ c = '\r'

/-- Python `str.strip()`: drop leading and trailing whitespace. -/
def stripChars (s : List Char) : List Char :=
  ((s.dropWhile isPySpace).reverse.dropWhile isPySpace).reverse

/-- Python `str.replace(pat, rep)`: replace non-overlapping occurrences left
to right.  The second argument counts characters of a just-matched pattern
still to be consumed. -/
def replaceChars (pat rep : List Char) : List Char → ℕ → List Char
  | [], _ => []
  | _ :: rest, Nat.succ skip => replaceChars pat rep rest skip
  | c :: rest, 0 =>
    if pat ≠ [] ∧ pat.isPrefixOf (c :: rest) then
      rep ++ replaceChars pat rep rest (pat.length - 1)
    else
      c :: replaceChars pat rep rest 0

/-- The numeric value of a decimal digit. -/
def digitVal? (c : Char) : Option ℕ :=
  if '0' ≤ c ∧ c ≤ '9' then some (c.toNat - 48) else none

/-- Evaluate a digit string left to right (`none` on a non-digit). -/
def digitsValAux : List Char → ℕ → Option ℕ
  | [], acc => some acc
  | c :: rest, acc =>
    match digitVal? c with
    | some d => digitsValAux rest (acc * 10 + d)
    | none => none

/-- Python `int(s)` on a stripped string: optional sign followed by a
nonempty digit string, else a `ValueError` (`none`). -/
def pyIntParse (s : List Char) : Option ℤ :=
  match s with
  | '-' :: rest => if rest ≠ [] then (digitsValAux rest 0).map (fun n => -(n : ℤ)) else none
  | '+' :: rest => if rest ≠ [] then (digitsValAux rest 0).map (fun n => (n : ℤ)) else none
  | _ => if s ≠ [] then (digitsValAux s 0).map (fun n => (n : ℤ)) else none

/-- Python `float(s)` on the plain decimal-point literals reachable here
(an optional sign, digits, one `.`, digits, at least one digit overall);
`none` is a `ValueError`.  Exponent/inf/nan forms never carry a `.` through
`_parse_value_with_units` and are out of scope. -/
def pyFloatParse (s : List Char) : Option ℚ :=
  let sgn : ℚ × List Char :=
    match s with
    | '-' :: rest => (-1, rest)
    | '+' :: rest => (1, rest)
    | _ => (1, s)
  match sgn.2.splitOn '.' with
  | [ip, fp] =>
    if (ip ≠ [] ∨ fp ≠ []) ∧ ip.all (fun c => (digitVal? c).isSome)
        ∧ fp.all (fun c => (digitVal? c).isSome) then
      some (sgn.1 * (((digitsValAux ip 0).getD 0 : ℚ)
        + ((digitsValAux fp 0).getD 0 : ℚ) / 10 ^ fp.length))
    else none
  | _ => none

/-- `main._parse_value_with_units`: lower-case, strip, delete every `"kg"` and
every `"m"`, then parse — `float` when a `.` remains, else `int`; any parse
failure is swallowed and becomes `0`. -/
def _parse_value_with_units (value_str : String) : ℚ :=
  let s := replaceChars ['m'] []
    (replaceChars ['k', 'g'] [] (stripChars (value_str.data.map asciiLower)) 0) 0
  if s.contains '.' then
    match pyFloatParse s with
    | some q => q
    | none => 0
  else
    match pyIntParse s with
    | some n => (n : ℚ)
    | none => 0

/-- The scene produced by the course-loading block of `main`. -/
structure Scene where
  asteroids : List game_objects.Asteroid
  gates : List game_objects.Gate

/-- The `try`/`except` course-loading block of `main`: `FileNotFoundError`
and `json.JSONDecodeError` are caught and degrade to the empty scene; any
other exception (in particular `KeyError`) propagates and aborts `main`. -/
def loadScene (file : Except ReadErr Json) : Except PyErr Scene :=
  match game_objects.load_course_from_file file with
  | .ok c => .ok { asteroids := c.asteroids, gates := c.gates }
  | .error .fileNotFound => .ok { asteroids := [], gates := [] }
  | .error .jsonDecodeError => .ok { asteroids := [], gates := [] }
  | .error e => .error e

/-- The per-frame gate-progress state of the main loop. -/
structure RaceState where
  gates : List game_objects.Gate
  current_gate_index : ℕ

/-- `main.reset_game_state`, restricted to the race-progress state it
returns: clear every `is_passed` flag, reset the target index to `0` and
`game_over` to `false` (the ship-field resets act on the quaternion
`Spaceship` and are not needed by any claim). -/
def reset_game_state (gates : List game_objects.Gate) :
    List game_objects.Gate × ℕ × Bool :=
  (gates.map (fun g => { g with is_passed := false }), 0, false)

/-- The gate-check block of the main loop: when a current target gate exists
and the ship is strictly closer to its position than its size, mark it passed
and advance the target index by one; otherwise leave the state unchanged. -/
def gateCheckStep (ship_position : Vec3) (st : RaceState) : RaceState :=
  if h : st.current_gate_index < st.gates.length then
    let target := st.gates.get ⟨st.current_gate_index, h⟩
    if (ship_position - target.position).norm < target.size then
      { gates := st.gates.set st.current_gate_index { target with is_passed := true },
        current_gate_index := st.current_gate_index + 1 }
    else st
  else st

end main

/-! ### Concrete scenario inputs and claim-side formula definitions -/

/-- Scenario A ship: mass 1000, zero initial position and velocity. -/
def scenarioA_ship : physics.Spaceship :=
  physics.Spaceship.init (some ⟨0, 0, 0⟩) (some ⟨0, 0, 0⟩) none 1000

/-- Scenario B gate: position `(0, 0, 1000)`, size 800. -/
def scenarioB_gate : game_objects.Gate :=
  game_objects.Gate.init ⟨0, 0, 1000⟩ ⟨1, 0, 0, 0⟩ 800

/-- Scenario B race state: the gate above as the single, current target. -/
def scenarioB_state : main.RaceState :=
  { gates := [scenarioB_gate], current_gate_index := 0 }

/-- A course document whose single gate record has a `gate_number` but no
`position`: a missing-required-field input. -/
def missing_field_course : Json :=
  Json.obj [("race_gates", Json.arr [Json.obj [("gate_number", Json.num 1)]])]

/-- A scenario D gate record: gate number `n`, x-position equal to `n`. -/
def scenarioD_gate_record (n : ℚ) : Json :=
  Json.obj [("gate_number", Json.num n),
    ("position", Json.arr [Json.num n, Json.num 0, Json.num 0]),
    ("orientation", Json.arr [Json.num 1, Json.num 0, Json.num 0, Json.num 0]),
    ("size", Json.num 30)]

/-- Scenario D gate records in file order: numbered 2, 1, 3. -/
def scenarioD_records : List Json :=
  [scenarioD_gate_record 2, scenarioD_gate_record 1, scenarioD_gate_record 3]

/-- Scenario D course document: gates numbered 2, 1, 3 in file order. -/
def scenarioD_course : Json :=
  Json.obj [("course_name", Json.str "d"), ("race_gates", Json.arr scenarioD_records)]

/-- Camera for the projection counterexample: 2x2 pixel viewport, fov 90,
near plane 0.5, looking from the origin along +z. -/
def cam7 : renderer.Camera :=
  { width := 2, height := 2, fov := 90, near_plane := 0.5,
    position := ⟨0, 0, 0⟩, target := ⟨0, 0, 1⟩, up := ⟨0, 1, 0⟩ }

/-- World point for the projection counterexample. -/
def pt7 : Vec3 := ⟨-(1 / 2), 0, 1⟩

/-- The pixel-x formula asserted by the projection claim, written from the
claim's words for comparison with `Camera.project_point`:
`screenX = (x + 1) * 0.5 * width` with `x` the camera-space x scaled by
`1 / (tan(fovRadians / 2) * pz)`. -/
def claimedScreenX (c : renderer.Camera) (p : Vec3) : ℝ :=
  ((c.cameraCoords p).1 * (1 / (Real.tan ((c.fov * Real.pi / 180) / 2) * c.cameraZ p)) + 1)
    * 0.5 * c.width

/-- The pixel-y formula asserted by the projection claim, written from the
claim's words: `screenY = (1 - (y + 1) * 0.5) * height`. -/
def claimedScreenY (c : renderer.Camera) (p : Vec3) : ℝ :=
  (1 - ((c.cameraCoords p).2.1 * (1 / (Real.tan ((c.fov * Real.pi / 180) / 2) * c.cameraZ p)) + 1)
    * 0.5) * c.height

/-- Witness asteroid (unit orientation, nonzero spin). -/
def c2_asteroid : game_objects.Asteroid :=
  ⟨"asteroid_cube_simple", ⟨0, 0, 0⟩, ⟨1, 0, 0, 0⟩, ⟨0, 1, 0⟩, 100⟩

/-- Witness ship (unit orientation, nonzero spin). -/
def c2_ship : SpaceshipQ :=
  ⟨⟨0, 0, 0⟩, ⟨0, 0, 0⟩, ⟨1, 0, 0, 0⟩, ⟨0, 1, 0⟩, 1000, ⟨1000, 1000, 1000⟩, ⟨0, 0, 0⟩, ⟨0, 0, 0⟩⟩

/-- Witness asteroid with unit orientation and zero spin. -/
def c10_asteroid_unit : game_objects.Asteroid :=
  ⟨"asteroid_cube_simple", ⟨0, 0, 0⟩, ⟨1, 0, 0, 0⟩, ⟨0, 0, 0⟩, 1⟩

/-- Witness asteroid whose orientation is the zero quaternion. -/
def c10_asteroid_zero : game_objects.Asteroid :=
  ⟨"asteroid_cube_simple", ⟨0, 0, 0⟩, ⟨0, 0, 0, 0⟩, ⟨0, 0, 0⟩, 1⟩

/-! ## Theorems -/

lemma Quat.normSq_nonneg (q : Quat) : 0 ≤ q.normSq := by
  unfold Quat.normSq
  positivity

lemma Quat.norm_eq_one_iff (q : Quat) : q.norm = 1 ↔ q.normSq = 1 := by
  unfold Quat.norm
  exact Real.sqrt_eq_one

/-- The squared norm of the first-order quaternion integration step
`q + dt * (0.5 * (q * (0, w)))` factors through the squared norm of `q`:
the Hamilton product is norm-multiplicative (Euler's four-square identity). -/
lemma integrated_normSq (q : Quat) (w : Vec3) (dt : ℝ) :
    (q + dt • ((0.5 : ℝ) • utils.q_multiply q ⟨0, w.x, w.y, w.z⟩)).normSq
      = q.normSq * (1 + (dt / 2) ^ 2 * w.normSq) := by
  simp only [Quat.normSq, Vec3.normSq, utils.q_multiply, Quat.qadd_w, Quat.qadd_x, Quat.qadd_y,
    Quat.qadd_z, Quat.qsmul_w, Quat.qsmul_x, Quat.qsmul_y, Quat.qsmul_z]
  ring

/-- Renormalizing the integration step of a unit quaternion yields a unit
quaternion, and the pre-normalization norm is strictly positive. -/
lemma unit_step_normSq (q : Quat) (w : Vec3) (dt : ℝ) (h : q.normSq = 1) :
    0 < (q + dt • ((0.5 : ℝ) • utils.q_multiply q ⟨0, w.x, w.y, w.z⟩)).norm
    ∧ ((1 / (q + dt • ((0.5 : ℝ) • utils.q_multiply q ⟨0, w.x, w.y, w.z⟩)).norm) •
        (q + dt • ((0.5 : ℝ) • utils.q_multiply q ⟨0, w.x, w.y, w.z⟩))).normSq = 1 := by
  set q' := q + dt • ((0.5 : ℝ) • utils.q_multiply q ⟨0, w.x, w.y, w.z⟩) with hq'
  have hsq : q'.normSq = 1 + (dt / 2) ^ 2 * w.normSq := by
    rw [hq', integrated_normSq, h, one_mul]
  have hwnn : 0 ≤ w.normSq := by unfold Vec3.normSq; positivity
  have hpos : 0 < q'.normSq := by nlinarith
  have hnormpos : 0 < q'.norm := Real.sqrt_pos.mpr hpos
  refine ⟨hnormpos, ?_⟩
  have hsmul : ((1 / q'.norm) • q').normSq = (1 / q'.norm) ^ 2 * q'.normSq := by
    simp only [Quat.normSq, Quat.qsmul_w, Quat.qsmul_x, Quat.qsmul_y, Quat.qsmul_z]
    ring
  rw [hsmul]
  have hsq' : q'.norm ^ 2 = q'.normSq := Real.sq_sqrt (le_of_lt hpos)
  field_simp
  rw [hsq']

/-- One `Asteroid.update` step preserves unit squared norm of the
orientation. -/
lemma asteroid_update_normSq (a : game_objects.Asteroid) (dt : ℝ)
    (h : a.orientation.normSq = 1) : ((a.update dt).orientation).normSq = 1 := by
  have key := unit_step_normSq a.orientation a.angular_velocity dt h
  have hint : a.integrated dt
      = a.orientation + dt • ((0.5 : ℝ) • utils.q_multiply a.orientation
          ⟨0, a.angular_velocity.x, a.angular_velocity.y, a.angular_velocity.z⟩) := rfl
  unfold game_objects.Asteroid.update
  rw [if_pos (by rw [hint]; exact key.1)]
  simp only [hint]
  exact key.2

/-- Folding `Asteroid.update` over any list of time steps preserves unit
squared norm of the orientation. -/
lemma asteroid_foldl_normSq (dts : List ℝ) :
    ∀ a : game_objects.Asteroid, a.orientation.normSq = 1 →
      ((dts.foldl game_objects.Asteroid.update a).orientation).normSq = 1 := by
  induction dts with
  | nil => intro a h; exact h
  | cons d rest ih =>
      intro a h
      exact ih _ (asteroid_update_normSq a d h)

/-- One `SpaceshipQ.update` step preserves unit squared norm of the
orientation. -/
lemma spaceshipQ_update_normSq (s : SpaceshipQ) (dt : ℝ)
    (h : s.orientation.normSq = 1) : ((s.update dt).orientation).normSq = 1 := by
  have key := unit_step_normSq s.orientation
    (s.angular_velocity + dt •
      (⟨s.total_torque.x / s.inertia_tensor.x,
        s.total_torque.y / s.inertia_tensor.y,
        s.total_torque.z / s.inertia_tensor.z⟩ : Vec3)) dt h
  exact key.2

/-- Folding `SpaceshipQ.update` over any list of time steps preserves unit
squared norm of the orientation. -/
lemma spaceshipQ_foldl_normSq (dts : List ℝ) :
    ∀ s : SpaceshipQ, s.orientation.normSq = 1 →
      ((dts.foldl SpaceshipQ.update s).orientation).normSq = 1 := by
  induction dts with
  | nil => intro s h; exact h
  | cons d rest ih =>
      intro s h
      exact ih _ (spaceshipQ_update_normSq s d h)

/-- C2: starting from a unit-norm orientation quaternion, any finite sequence
of `update(dt)` calls with `dt ≥ 0` and finite angular velocity leaves the
orientation norm equal to 1 (exactly, over the reals): every step renormalizes
the orientation, and the pre-normalization norm is never zero.  This holds for
the `Asteroid` of `game_objects.py` and for the spec-modelled quaternion
`Spaceship`. -/
theorem claim_C2 :
    (∀ a : game_objects.Asteroid, a.orientation.norm = 1 →
      ∀ dts : List ℝ, (∀ d ∈ dts, 0 ≤ d) →
        ((dts.foldl game_objects.Asteroid.update a).orientation).norm = 1)
  ∧ (∀ s : SpaceshipQ, s.orientation.norm = 1 →
      ∀ dts : List ℝ, (∀ d ∈ dts, 0 ≤ d) →
        ((dts.foldl SpaceshipQ.update s).orientation).norm = 1) := by
  constructor
  · intro a h dts _
    exact (Quat.norm_eq_one_iff _).mpr
      (asteroid_foldl_normSq dts a ((Quat.norm_eq_one_iff _).mp h))
  · intro s h dts _
    exact (Quat.norm_eq_one_iff _).mpr
      (spaceshipQ_foldl_normSq dts s ((Quat.norm_eq_one_iff _).mp h))

/-- C2 witness: a concrete asteroid and a concrete ship, both starting at the
identity orientation with nonzero spin, keep a unit orientation after the
update sequence `[1, 0.5]`. -/
theorem claim_C2_witness :
    ((([1, 0.5] : List ℝ).foldl game_objects.Asteroid.update c2_asteroid).orientation).norm = 1
  ∧ ((([1, 0.5] : List ℝ).foldl SpaceshipQ.update c2_ship).orientation).norm = 1 := by
  have hunit : (⟨1, 0, 0, 0⟩ : Quat).norm = 1 := by
    rw [Quat.norm_eq_one_iff]
    norm_num [Quat.normSq]
  have hdts : ∀ d ∈ ([1, 0.5] : List ℝ), 0 ≤ d := by
    intro d hd
    fin_cases hd <;> norm_num
  exact ⟨claim_C2.1 c2_asteroid hunit [1, 0.5] hdts, claim_C2.2 c2_ship hunit [1, 0.5] hdts⟩

/-- C10: `Asteroid.update` is total — the orientation is renormalized exactly
when the post-integration norm is strictly positive, a zero norm leaves the
orientation as integrated with no error, and the rest of the asteroid state
is untouched. -/
theorem claim_C10 :
    ∀ (a : game_objects.Asteroid) (dt : ℝ),
      (0 < (a.integrated dt).norm →
        (a.update dt).orientation = (1 / (a.integrated dt).norm) • a.integrated dt)
    ∧ ((a.integrated dt).norm = 0 → (a.update dt).orientation = a.integrated dt)
    ∧ (a.update dt).position = a.position
    ∧ (a.update dt).angular_velocity = a.angular_velocity
    ∧ (a.update dt).model_id = a.model_id
    ∧ (a.update dt).size = a.size := by
  intro a dt
  by_cases h : (a.integrated dt).norm > 0
  · have hupd : a.update dt
        = { a with orientation := (1 / (a.integrated dt).norm) • a.integrated dt } := by
      simp only [game_objects.Asteroid.update]
      rw [if_pos h]
    rw [hupd]
    exact ⟨fun _ => rfl, fun hz => absurd hz (ne_of_gt h), rfl, rfl, rfl, rfl⟩
  · have hupd : a.update dt = { a with orientation := a.integrated dt } := by
      simp only [game_objects.Asteroid.update]
      rw [if_neg h]
    rw [hupd]
    exact ⟨fun hp => absurd hp h, fun _ => rfl, rfl, rfl, rfl, rfl⟩

/-- C10 witness: a unit-orientation asteroid is renormalized (to itself), and
an asteroid whose orientation is the zero quaternion keeps it, with no
error. -/
theorem claim_C10_witness :
    (c10_asteroid_unit.update 1).orientation = ⟨1, 0, 0, 0⟩
  ∧ (c10_asteroid_zero.update 1).orientation = ⟨0, 0, 0, 0⟩ := by
  constructor
  · have hint : c10_asteroid_unit.integrated 1 = ⟨1, 0, 0, 0⟩ := by
      simp only [c10_asteroid_unit, game_objects.Asteroid.integrated, utils.q_multiply]
      ext <;> simp
    have hnorm : (c10_asteroid_unit.integrated 1).norm = 1 := by
      rw [hint, Quat.norm_eq_one_iff]
      norm_num [Quat.normSq]
    rw [(claim_C10 c10_asteroid_unit 1).1 (by rw [hnorm]; norm_num), hnorm, hint]
    ext <;> simp
  · have hint : c10_asteroid_zero.integrated 1 = ⟨0, 0, 0, 0⟩ := by
      simp only [c10_asteroid_zero, game_objects.Asteroid.integrated, utils.q_multiply]
      ext <;> simp
    have hnorm : (c10_asteroid_zero.integrated 1).norm = 0 := by
      rw [hint]
      unfold Quat.norm
      norm_num [Quat.normSq]
    rw [(claim_C10 c10_asteroid_zero 1).2.1 hnorm, hint]

/-- C1: `apply_force(f, local)` with `local = true` rotates `f` by the current
orientation (via `utils.qv_rotate`) and adds the result to the pending-force
accumulator; it changes no motion state (position, velocity, orientation,
angular velocity all unchanged for either flag value); and the accumulated
force only takes effect through the next `update(dt)`, which folds it into the
new velocity. -/
theorem claim_C1 :
    ∀ (s : SpaceshipQ) (f : Vec3),
      (s.apply_force f true).total_force = s.total_force + utils.qv_rotate s.orientation f
    ∧ (∀ b : Bool,
        (s.apply_force f b).position = s.position
      ∧ (s.apply_force f b).velocity = s.velocity
      ∧ (s.apply_force f b).orientation = s.orientation
      ∧ (s.apply_force f b).angular_velocity = s.angular_velocity)
    ∧ (∀ dt : ℝ, ((s.apply_force f true).update dt).velocity
        = s.velocity + dt • ((1 / s.mass) • (s.total_force + utils.qv_rotate s.orientation f))) := by
  intro s f
  refine ⟨by simp [SpaceshipQ.apply_force], fun b => ⟨rfl, rfl, rfl, rfl⟩, fun dt => ?_⟩
  simp [SpaceshipQ.apply_force, SpaceshipQ.update]

/-- C3: the integrator of `physics.Spaceship.update` is semi-implicit Euler —
the new velocity is computed from the accumulated force first and the new
position uses the new velocity — and on Scenario A (mass 1000, zero initial
state, one force `(1000, 0, 0)`, one `update(1.0)`) it yields velocity
`(1, 0, 0)` and position `(1, 0, 0)`. -/
theorem claim_C3 :
    (∀ (s : physics.Spaceship) (dt : ℝ),
        (s.update dt).velocity
          = physics.add_vectors s.velocity
              (physics.scale_vector (physics.scale_vector s.total_force (1.0 / s.mass)) dt)
      ∧ (s.update dt).position
          = physics.add_vectors s.position (physics.scale_vector ((s.update dt).velocity) dt))
  ∧ ((scenarioA_ship.apply_force ⟨1000, 0, 0⟩).update 1).velocity = ⟨1, 0, 0⟩
  ∧ ((scenarioA_ship.apply_force ⟨1000, 0, 0⟩).update 1).position = ⟨1, 0, 0⟩ := by
  refine ⟨fun s dt => ⟨rfl, rfl⟩, ?_, ?_⟩ <;>
    ext <;>
      simp [scenarioA_ship, physics.Spaceship.init, physics.Spaceship.apply_force,
        physics.Spaceship.update, physics.add_vectors, physics.scale_vector] <;>
      norm_num

/-- C4 counterexample: construction with non-positive mass does not fail — the
constructor stores `mass = 0` as-is — and a malformed config value is silently
coerced to `0` by `_parse_value_with_units` and flows into a zero-mass ship
with no error, contradicting the claim that such configurations are rejected
at construction time with an `InvalidConfiguration` error. -/
theorem claim_C4_counterexample :
    main._parse_value_with_units "abc" = 0
  ∧ (physics.Spaceship.init none none none ((main._parse_value_with_units "abc" : ℚ) : ℝ)).mass = 0
  ∧ (physics.Spaceship.init none none none 0).mass = 0 := by
  have habc : main._parse_value_with_units "abc" = 0 := by decide
  refine ⟨habc, ?_, rfl⟩
  show ((main._parse_value_with_units "abc" : ℚ) : ℝ) = 0
  rw [habc]
  norm_num

/-- C4 amended: construction performs no validation — any mass value,
including zero and negative ones, is stored unchanged with no error;
`_parse_value_with_units` coerces a malformed value to `0` (and strips unit
suffixes from well-formed ones); and `update` divides by `mass`
unconditionally (in Python a zero mass raises `ZeroDivisionError` there
instead of an `InvalidConfiguration` error at construction). -/
theorem claim_C4_amended :
    (∀ (p v o : Option Vec3) (m : ℝ), (physics.Spaceship.init p v o m).mass = m)
  ∧ main._parse_value_with_units "abc" = 0
  ∧ main._parse_value_with_units "1000kg" = 1000
  ∧ (∀ (s : physics.Spaceship) (dt : ℝ),
      (s.update dt).velocity
        = physics.add_vectors s.velocity
            (physics.scale_vector (physics.scale_vector s.total_force (1.0 / s.mass)) dt)) :=
  ⟨fun _ _ _ _ => rfl, by decide, by decide, fun _ _ => rfl⟩

/-- C5 counterexample: a course file whose gate record lacks the required
`position` field makes `load_course_from_file` raise `KeyError('position')`,
which the `try`/`except` block of `main` (catching only `FileNotFoundError`
and `json.JSONDecodeError`) does not catch: the program crashes instead of
falling back to an empty course. -/
theorem claim_C5_counterexample :
    main.loadScene (Except.ok missing_field_course)
      = Except.error (PyErr.keyError "position") := rfl

/-- C5 amended: a missing course file or malformed JSON is recoverable — the
caller falls back to an empty course — but a missing required field raises a
`KeyError` that propagates out of the loading block uncaught. -/
theorem claim_C5_amended :
    main.loadScene (Except.error ReadErr.fileNotFound)
      = Except.ok { asteroids := [], gates := [] }
  ∧ main.loadScene (Except.error ReadErr.jsonDecodeError)
      = Except.ok { asteroids := [], gates := [] }
  ∧ (∀ (file : Except ReadErr Json) (k : String),
      game_objects.load_course_from_file file = Except.error (PyErr.keyError k) →
        main.loadScene file = Except.error (PyErr.keyError k)) := by
  refine ⟨rfl, rfl, fun file k h => ?_⟩
  unfold main.loadScene
  rw [h]

/-- C5 witness: the amended claim applied to the concrete missing-field
course document. -/
theorem claim_C5_witness :
    main.loadScene (Except.ok missing_field_course)
      = Except.error (PyErr.keyError "position") :=
  claim_C5_amended.2.2 (Except.ok missing_field_course) "position" rfl

/-- C6: each frame, only the current target gate is tested; when the Euclidean
distance from the ship to the gate position is strictly below the gate size
the gate's `is_passed` flag is set and the target index advances by exactly
one, otherwise nothing changes; the test depends on the ship position only
through that distance (pure sphere containment, direction-independent).  On
Scenario B (gate at `(0, 0, 1000)` with size 800, ship at `(0, 0, 999)`) the
gate is passed and the index advances from 0 to 1; `reset_game_state` starts
the target index at 0. -/
theorem claim_C6 :
    (∀ (pos : Vec3) (st : main.RaceState) (h : st.current_gate_index < st.gates.length),
      ((pos - (st.gates.get ⟨st.current_gate_index, h⟩).position).norm
          < (st.gates.get ⟨st.current_gate_index, h⟩).size →
        main.gateCheckStep pos st =
          { gates := st.gates.set st.current_gate_index
              { st.gates.get ⟨st.current_gate_index, h⟩ with is_passed := true },
            current_gate_index := st.current_gate_index + 1 })
      ∧ (¬ (pos - (st.gates.get ⟨st.current_gate_index, h⟩).position).norm
            < (st.gates.get ⟨st.current_gate_index, h⟩).size →
          main.gateCheckStep pos st = st)
      ∧ (∀ pos' : Vec3,
          (pos' - (st.gates.get ⟨st.current_gate_index, h⟩).position).norm
            = (pos - (st.gates.get ⟨st.current_gate_index, h⟩).position).norm →
          main.gateCheckStep pos' st = main.gateCheckStep pos st))
  ∧ main.gateCheckStep ⟨0, 0, 999⟩ scenarioB_state
      = { gates := [{ scenarioB_gate with is_passed := true }], current_gate_index := 1 }
  ∧ (∀ gates : List game_objects.Gate, (main.reset_game_state gates).2.1 = 0) := by
  have general : ∀ (pos : Vec3) (st : main.RaceState)
      (h : st.current_gate_index < st.gates.length),
      ((pos - (st.gates.get ⟨st.current_gate_index, h⟩).position).norm
          < (st.gates.get ⟨st.current_gate_index, h⟩).size →
        main.gateCheckStep pos st =
          { gates := st.gates.set st.current_gate_index
              { st.gates.get ⟨st.current_gate_index, h⟩ with is_passed := true },
            current_gate_index := st.current_gate_index + 1 })
      ∧ (¬ (pos - (st.gates.get ⟨st.current_gate_index, h⟩).position).norm
            < (st.gates.get ⟨st.current_gate_index, h⟩).size →
          main.gateCheckStep pos st = st)
      ∧ (∀ pos' : Vec3,
          (pos' - (st.gates.get ⟨st.current_gate_index, h⟩).position).norm
            = (pos - (st.gates.get ⟨st.current_gate_index, h⟩).position).norm →
          main.gateCheckStep pos' st = main.gateCheckStep pos st) := by
    intro pos st h
    refine ⟨fun hlt => ?_, fun hge => ?_, fun pos' h' => ?_⟩
    · unfold main.gateCheckStep
      rw [dif_pos h, if_pos hlt]
    · unfold main.gateCheckStep
      rw [dif_pos h, if_neg hge]
    · simp only [main.gateCheckStep, dif_pos h]
      rw [h']
  refine ⟨general, ?_, fun _ => rfl⟩
  have h : scenarioB_state.current_gate_index < scenarioB_state.gates.length := by
    simp [scenarioB_state]
  have hget : scenarioB_state.gates.get ⟨scenarioB_state.current_gate_index, h⟩
      = scenarioB_gate := rfl
  have hdist : ((⟨0, 0, 999⟩ : Vec3) - scenarioB_gate.position).norm = 1 := by
    have hsq : ((⟨0, 0, 999⟩ : Vec3) - scenarioB_gate.position).normSq = 1 := by
      simp [scenarioB_gate, game_objects.Gate.init, Vec3.normSq]
      norm_num
    rw [Vec3.norm, hsq, Real.sqrt_one]
  have hlt : ((⟨0, 0, 999⟩ : Vec3)
      - (scenarioB_state.gates.get ⟨scenarioB_state.current_gate_index, h⟩).position).norm
      < (scenarioB_state.gates.get ⟨scenarioB_state.current_gate_index, h⟩).size := by
    rw [hget, hdist]
    show (1 : ℝ) < scenarioB_gate.size
    norm_num [scenarioB_gate, game_objects.Gate.init]
  exact ((general ⟨0, 0, 999⟩ scenarioB_state h).1 hlt).trans rfl

/-- C6 witness: the sphere-containment branch of the gate check applied to
the concrete Scenario B state. -/
theorem claim_C6_witness :
    main.gateCheckStep ⟨0, 0, 999.5⟩ scenarioB_state
      = { gates := [{ scenarioB_gate with is_passed := true }], current_gate_index := 1 } := by
  have h : scenarioB_state.current_gate_index < scenarioB_state.gates.length := by
    simp [scenarioB_state]
  have hget : scenarioB_state.gates.get ⟨scenarioB_state.current_gate_index, h⟩
      = scenarioB_gate := rfl
  have hdist : ((⟨0, 0, 999.5⟩ : Vec3) - scenarioB_gate.position).normSq = 1 / 4 := by
    simp [scenarioB_gate, game_objects.Gate.init, Vec3.normSq]
    norm_num
  have hlt : ((⟨0, 0, 999.5⟩ : Vec3)
      - (scenarioB_state.gates.get ⟨scenarioB_state.current_gate_index, h⟩).position).norm
      < (scenarioB_state.gates.get ⟨scenarioB_state.current_gate_index, h⟩).size := by
    rw [hget]
    show ((⟨0, 0, 999.5⟩ : Vec3) - scenarioB_gate.position).norm < scenarioB_gate.size
    rw [Vec3.norm, hdist]
    have : Real.sqrt (1 / 4) ≤ 1 := by
      rw [show (1 : ℝ) = Real.sqrt 1 by rw [Real.sqrt_one]]
      exact Real.sqrt_le_sqrt (by norm_num)
    calc Real.sqrt (1 / 4) ≤ 1 := this
      _ < scenarioB_gate.size := by norm_num [scenarioB_gate, game_objects.Gate.init]
  exact ((claim_C6.1 ⟨0, 0, 999.5⟩ scenarioB_state h).1 hlt).trans rfl

/-- C9: the gate records used to build the loaded gate list are the file's
records sorted by `gate_number` (nondecreasing key order, whatever the file
order), and on the Scenario D course — gates numbered `[2, 1, 3]` in file
order — the loaded gate sequence is ordered `[1, 2, 3]` (here read off the
x-positions, which equal the gate numbers). -/
theorem claim_C9 :
    (∀ (records : List Json) (keyed : List (ℚ × Json)),
        game_objects.sorted_gate_records records = Except.ok keyed →
          List.Sorted (fun a b : ℚ × Json => a.1 ≤ b.1) keyed)
  ∧ (game_objects.load_course_from_file (Except.ok scenarioD_course)).map
      (fun c => c.gates.map (fun g => g.position.x)) = Except.ok [1, 2, 3] := by
  constructor
  · intro records keyed h
    unfold game_objects.sorted_gate_records at h
    cases hm : records.mapM game_objects.gate_sort_key with
    | error e =>
        rw [hm] at h
        cases h
    | ok ks =>
        rw [hm] at h
        have hk : keyed = List.insertionSort (fun a b : ℚ × Json => a.1 ≤ b.1) ks := by
          cases h
          rfl
        haveI : IsTotal (ℚ × Json) (fun a b => a.1 ≤ b.1) := ⟨fun a b => le_total a.1 b.1⟩
        haveI : IsTrans (ℚ × Json) (fun a b => a.1 ≤ b.1) := ⟨fun _ _ _ hab hbc => le_trans hab hbc⟩
        rw [hk]
        exact List.sorted_insertionSort _ ks
  · have h : (game_objects.load_course_from_file (Except.ok scenarioD_course)).map
        (fun c => c.gates.map (fun g => g.position.x))
        = Except.ok [((1 : ℚ) : ℝ), ((2 : ℚ) : ℝ), ((3 : ℚ) : ℝ)] := rfl
    rw [h]
    norm_num

/-- C9 witness: the record list of Scenario D, keyed and sorted by the loader,
is in nondecreasing gate-number order. -/
theorem claim_C9_witness :
    List.Sorted (fun a b : ℚ × Json => a.1 ≤ b.1)
      [(1, scenarioD_gate_record 1), (2, scenarioD_gate_record 2),
       (3, scenarioD_gate_record 3)] :=
  claim_C9.1 scenarioD_records
    [(1, scenarioD_gate_record 1), (2, scenarioD_gate_record 2),
     (3, scenarioD_gate_record 3)] rfl

/-- The edge loop of `draw_wireframe_object`, reshaped: filtering the edges
whose two looked-up screen points are both present, then reading those points
off. -/
lemma filterMap_visible_edges (g : ℕ → Option (ℤ × ℤ)) (edges : List (ℕ × ℕ)) :
    edges.filterMap (fun e =>
      match g e.1, g e.2 with
      | some p1, some p2 => some (p1, p2)
      | _, _ => none)
    = (edges.filter (fun e => (g e.1).isSome && (g e.2).isSome)).map
        (fun e => ((g e.1).getD (0, 0), (g e.2).getD (0, 0))) := by
  induction edges with
  | nil => rfl
  | cons e rest ih =>
      rw [List.filterMap_cons, List.filter_cons]
      cases h1 : g e.1 with
      | none => simp [h1, ih]
      | some p1 =>
          cases h2 : g e.2 with
          | none => simp [h1, h2, ih]
          | some p2 => simp [h1, h2, ih]

/-- C8: `draw_wireframe_object` draws exactly the edges both of whose
projected endpoints are present (`some`), in edge order, connecting those two
screen points; an edge with any endpoint behind the near plane (projected to
`none`) is skipped entirely — there is no partial clipping. -/
theorem claim_C8 :
    ∀ (camera : renderer.Camera) (position : Vec3) (orientation : Quat)
      (vertices : List Vec3) (edges : List (ℕ × ℕ)),
      renderer.draw_wireframe_object camera position orientation vertices edges
        = (edges.filter (fun e =>
            ((renderer.screen_points camera position orientation vertices).getD e.1 none).isSome
            && ((renderer.screen_points camera position orientation vertices).getD e.2 none).isSome)).map
            (fun e =>
              (((renderer.screen_points camera position orientation vertices).getD e.1 none).getD (0, 0),
               ((renderer.screen_points camera position orientation vertices).getD e.2 none).getD (0, 0))) := by
  intro camera position orientation vertices edges
  exact filterMap_visible_edges
    (fun i => (renderer.screen_points camera position orientation vertices).getD i none) edges

/-- Evaluation of `Camera.project_point`: the near-plane branch returns
`none`; the visible branch returns the truncated claimed screen formulas. -/
lemma project_point_eval (c : renderer.Camera) (p : Vec3) :
    (c.cameraZ p < c.near_plane → c.project_point p = none)
  ∧ (¬ c.cameraZ p < c.near_plane →
      c.project_point p
        = some (renderer.pyInt (claimedScreenX c p), renderer.pyInt (claimedScreenY c p))) := by
  constructor
  · intro h
    have h' : (c.cameraCoords p).2.2 < c.near_plane := h
    simp only [renderer.Camera.project_point]
    rw [if_pos h']
  · intro h
    have h' : ¬ (c.cameraCoords p).2.2 < c.near_plane := h
    simp only [renderer.Camera.project_point]
    rw [if_neg h']
    rfl

/-- Camera-space coordinates of `pt7` under `cam7`. -/
lemma cam7_coords : cam7.cameraCoords pt7 = (1 / 2, 0, 1) := by
  have hsub : cam7.target - cam7.position = (⟨0, 0, 1⟩ : Vec3) := by
    ext <;> simp [cam7]
  have hn1 : ((⟨0, 0, 1⟩ : Vec3)).norm = 1 := by
    rw [Vec3.norm]
    norm_num [Vec3.normSq, Real.sqrt_one]
  have hfwd : cam7.viewForward = ⟨0, 0, 1⟩ := by
    simp only [renderer.Camera.viewForward]
    rw [hsub, hn1, if_pos (by norm_num : (1 : ℝ) > 0)]
    ext <;> simp
  have hcross1 : Vec3.cross (⟨0, 0, 1⟩ : Vec3) cam7.up = ⟨-1, 0, 0⟩ := by
    ext <;> simp [Vec3.cross, cam7]
  have hnm : ((⟨-1, 0, 0⟩ : Vec3)).norm = 1 := by
    rw [Vec3.norm]
    norm_num [Vec3.normSq, Real.sqrt_one]
  have hright : cam7.viewRight = ⟨-1, 0, 0⟩ := by
    simp only [renderer.Camera.viewRight]
    rw [hfwd, hcross1, hnm, if_pos (by norm_num : (1 : ℝ) > 0)]
    ext <;> simp
  have hup : cam7.viewUp = ⟨0, 1, 0⟩ := by
    simp only [renderer.Camera.viewUp]
    rw [hright, hfwd]
    ext <;> simp [Vec3.cross]
  have hpc : pt7 - cam7.position = pt7 := by
    ext <;> simp [cam7, pt7]
  simp only [renderer.Camera.cameraCoords]
  rw [hright, hup, hfwd, hpc]
  norm_num [Vec3.dot, pt7]

/-- The camera-space depth of `pt7` under `cam7` is 1. -/
lemma cam7_z : cam7.cameraZ pt7 = 1 := by
  unfold renderer.Camera.cameraZ
  rw [cam7_coords]

/-- `pt7` is not clipped by `cam7`. -/
lemma cam7_not_clip : ¬ cam7.cameraZ pt7 < cam7.near_plane := by
  rw [cam7_z]
  norm_num [cam7]

/-- The claimed (unrounded) screen x of `pt7` under `cam7` is `3 / 2`. -/
lemma cam7_screenX : claimedScreenX cam7 pt7 = 3 / 2 := by
  have htan : Real.tan (cam7.fov * Real.pi / 180 / 2) = 1 := by
    have harg : cam7.fov * Real.pi / 180 / 2 = Real.pi / 4 := by
      simp only [cam7]
      ring
    rw [harg, Real.tan_pi_div_four]
  unfold claimedScreenX
  unfold renderer.Camera.cameraZ
  rw [cam7_coords, htan]
  norm_num [cam7]

/-- The claimed (unrounded) screen y of `pt7` under `cam7` is `1`. -/
lemma cam7_screenY : claimedScreenY cam7 pt7 = 1 := by
  have htan : Real.tan (cam7.fov * Real.pi / 180 / 2) = 1 := by
    have harg : cam7.fov * Real.pi / 180 / 2 = Real.pi / 4 := by
      simp only [cam7]
      ring
    rw [harg, Real.tan_pi_div_four]
  unfold claimedScreenY
  unfold renderer.Camera.cameraZ
  rw [cam7_coords, htan]
  norm_num [cam7]

/-- `project_point` on `pt7` returns the integer pixel pair `(1, 1)`. -/
lemma cam7_project : renderer.Camera.project_point cam7 pt7 = some (1, 1) := by
  rw [(project_point_eval cam7 pt7).2 cam7_not_clip, cam7_screenX, cam7_screenY]
  have hfloor : renderer.pyInt (3 / 2 : ℝ) = 1 := by
    unfold renderer.pyInt
    rw [if_pos (by norm_num : (0 : ℝ) ≤ 3 / 2)]
    rw [Int.floor_eq_iff]
    constructor <;> norm_num
  have hone : renderer.pyInt (1 : ℝ) = 1 := by
    unfold renderer.pyInt
    rw [if_pos (by norm_num : (0 : ℝ) ≤ 1)]
    exact Int.floor_one
  rw [hfloor, hone]

/-- C7 (amended): `project_point` returns `none` exactly when the camera-space
depth is strictly below the near plane; otherwise it returns the claimed
screen formulas truncated toward zero to integer pixel indices by Python's
`int(...)`. -/
theorem claim_C7 :
    ∀ (c : renderer.Camera) (p : Vec3),
      (c.project_point p = none ↔ c.cameraZ p < c.near_plane)
    ∧ (¬ c.cameraZ p < c.near_plane →
        c.project_point p
          = some (renderer.pyInt (claimedScreenX c p), renderer.pyInt (claimedScreenY c p))) := by
  intro c p
  by_cases h : c.cameraZ p < c.near_plane
  · exact ⟨⟨fun _ => h, fun _ => (project_point_eval c p).1 h⟩, fun hge => absurd h hge⟩
  · refine ⟨⟨fun hn => ?_, fun hlt => absurd hlt h⟩, fun _ => (project_point_eval c p).2 h⟩
    rw [(project_point_eval c p).2 h] at hn
    cases hn

/-- C7 witness: the visible branch of the projection applied to the concrete
camera `cam7` and point `pt7`. -/
theorem claim_C7_witness :
    renderer.Camera.project_point cam7 pt7
      = some (renderer.pyInt (claimedScreenX cam7 pt7),
              renderer.pyInt (claimedScreenY cam7 pt7)) :=
  (claim_C7 cam7 pt7).2 cam7_not_clip

/-- C7 counterexample: at `cam7`/`pt7` the function returns the integer pair
`(1, 1)` while the claimed formula value for `screenX` is `3 / 2`: the claim's
exact formula equality fails under the `int(...)` truncation. -/
theorem claim_C7_counterexample :
    renderer.Camera.project_point cam7 pt7 = some (1, 1)
  ∧ claimedScreenX cam7 pt7 = 3 / 2
  ∧ ((1 : ℝ) ≠ 3 / 2) :=
  ⟨cam7_project, cam7_screenX, by norm_num⟩
